import Mathlib

/-!
Verification development for the commit-tracker service: a shallow embedding of
`git_parser.py`, `data_writer.py` and `commit_tracker.py` (the Extractor, Record
Store and Orchestrator of the spec), together with theorems settling the spec's
claims about ordering, validation, search semantics and error envelopes.

Python values that cross the component boundaries are modelled by `PyVal`
(strings, integers, booleans, `None`, and lists of strings — the only list
payload the record schema uses, `changed_files`).  Python dicts are association
lists with first-occurrence lookup and in-place update.  Python exceptions are
modelled by `Except PyErr`; an operation that the source wraps in a
`try/except Exception` returning a `handle_error(...)` envelope is modelled by a
total function into `PyResult`, whose `error` constructor stands for the
`{status: 'error', ...}` dictionary produced by `error_handler.handle_error`.
-/

namespace CommitTrackerService

/-- Model of the Python values the service passes between its layers. -/
inductive PyVal where
  | none
  | bool (b : Bool)
  | int (n : Int)
  | str (s : String)
  | list (xs : List String)
  deriving DecidableEq

/-- A Python dict, as an insertion-ordered association list with unique keys. -/
abbrev PyDict : Type := List (String × PyVal)

/-- Python exceptions distinguished by the embedded code. -/
inductive PyErr where
  | valueError (msg : String)
  | attributeError
  | typeError
  | osError
  | gitRepositoryError (msg : String)
  | gitCommandError (msg : String)
  deriving DecidableEq

instance {ε α : Type} [DecidableEq ε] [DecidableEq α] : DecidableEq (Except ε α) :=
  fun a b =>
    match a, b with
    | .ok x, .ok y =>
      if h : x = y then .isTrue (by rw [h]) else .isFalse (fun hc => h (Except.ok.inj hc))
    | .error x, .error y =>
      if h : x = y then .isTrue (by rw [h]) else .isFalse (fun hc => h (Except.error.inj hc))
    | .ok _, .error _ => .isFalse (fun hc => Except.noConfusion hc)
    | .error _, .ok _ => .isFalse (fun hc => Except.noConfusion hc)

/-- The result shape a `try/except Exception` handler returns to the caller:
either the success payload or the `{status: 'error', ...}` envelope built by
`handle_error`. -/
inductive PyResult (α : Type) where
  | success (val : α)
  | error (e : PyErr)
  deriving DecidableEq

/-- The `status` field of the returned envelope. -/
def PyResult.status {α : Type} : PyResult α → String
  | .success _ => "success"
  | .error _ => "error"

/-- `d[k]` lookup returning `Option` (`None` for `KeyError`). -/
def dictGet? (d : PyDict) (k : String) : Option PyVal :=
  match d with
  | [] => Option.none
  | (k', v) :: rest => if k' = k then some v else dictGet? rest k

/-- `d.get(k, default)`. -/
def dictGetD (d : PyDict) (k : String) (dflt : PyVal) : PyVal :=
  (dictGet? d k).getD dflt

/-- `d[k]` at a point where the key is known present (`KeyError` impossible);
absent keys default to `PyVal.none`, which no embedded use ever hits. -/
def dictGetKnown (d : PyDict) (k : String) : PyVal :=
  (dictGet? d k).getD PyVal.none

/-- `d[k] = v`: replace the first occurrence in place, else append (Python's
insertion-order dict update). -/
def dictSet : PyDict → String → PyVal → PyDict
  | [], k, v => [(k, v)]
  | (k', v') :: rest, k, v =>
    if k' = k then (k, v) :: rest else (k', v') :: dictSet rest k v

/-! ## Python string primitives (on `List Char`) -/

/-- Is `pat` a contiguous substring of `hay` (Python's `pat in hay`)? -/
def containsSub (hay pat : List Char) : Bool :=
  pat.isPrefixOf hay ||
    match hay with
    | [] => false
    | _ :: t => containsSub t pat

/-- Python `pat in hay` on strings. -/
def pyIn (pat hay : String) : Bool := containsSub hay.data pat.data

/-- Python `str.lower()` (ASCII case folding, which covers every string the
service produces or matches). -/
def pyLower (s : String) : String := ⟨s.data.map Char.toLower⟩

/-- One character of `s.replace('Z', '+00:00')` — the only `replace` call the
source performs; a single-character pattern makes the replacement a
per-character substitution. -/
def replaceZchar (c : Char) : List Char :=
  if c = 'Z' then "+00:00".data else [c]

/-- Python `s.replace('Z', '+00:00')` (all occurrences). -/
def pyReplaceZ (s : String) : String :=
  ⟨(s.data.map replaceZchar).flatten⟩

/-- Python `s.strip()` (whitespace from both ends). -/
def pyStrip (s : String) : String :=
  ⟨((s.data.dropWhile Char.isWhitespace).reverse.dropWhile Char.isWhitespace).reverse⟩

/-- Python `s.split(sep)` for a single-character separator. -/
def splitOnChar (sep : Char) : List Char → List (List Char)
  | [] => [[]]
  | c :: rest =>
    match splitOnChar sep rest with
    | [] => [[c]]
    | cur :: parts =>
      if c = sep then [] :: cur :: parts else (c :: cur) :: parts

/-- Value of a digit string (`int(s)` after the digits have been checked
non-empty). -/
def digitsToNat (l : List Char) : Nat :=
  l.foldl (fun acc c => acc * 10 + (c.toNat - 48)) 0

/-- `.lower()` on a dynamically typed value: anything but a string raises
`AttributeError`. -/
def pyLowerOf : PyVal → Except PyErr String
  | .str s => .ok (pyLower s)
  | _ => .error .attributeError

/-- A string method (`.replace`, `fromisoformat` argument) applied to a
dynamically typed value: non-strings raise `AttributeError`. -/
def pyStrOf : PyVal → Except PyErr String
  | .str s => .ok s
  | _ => .error .attributeError

/-- Python `len(v)` — defined for strings and lists, `TypeError` otherwise. -/
def pyLen : PyVal → Except PyErr Nat
  | .str s => .ok s.data.length
  | .list xs => .ok xs.length
  | _ => .error .typeError

/-- Python `iter(v)` as used by a `for`/generator: lists yield their items,
strings yield their characters (as one-character strings), anything else
raises `TypeError`. -/
def pyIterStrs : PyVal → Except PyErr (List String)
  | .list xs => .ok xs
  | .str s => .ok (s.data.map (fun c => String.mk [c]))
  | _ => .error .typeError

/-! ## `datetime.fromisoformat` model

The source parses and compares timestamps through
`datetime.fromisoformat(s.replace('Z', '+00:00'))`.  We model the parser on the
ISO-8601 profile the service itself emits and consumes:
`YYYY-MM-DD[{T,space}HH:MM:SS[.f{1,6}][±HH:MM]]`, with calendar-valid fields and
year at least 1, returning `Option.none` where Python raises `ValueError`.
A parsed value records whether it carries an offset (aware) or not (naive);
comparing a naive with an aware value raises `TypeError`, as in Python. -/

/-- A parsed `datetime` value: calendar fields, microseconds, and the UTC
offset in minutes (`Option.none` for a naive value). -/
structure PyDateTime where
  year : Nat
  month : Nat
  day : Nat
  hour : Nat
  minute : Nat
  second : Nat
  micro : Nat
  tzMinutes : Option Int
  deriving DecidableEq

/-- Leap-year test of the Gregorian calendar. -/
def isLeapYear (y : Nat) : Bool :=
  (y % 4 == 0 && y % 100 != 0) || y % 400 == 0

/-- Number of days in a month. -/
def daysInMonth (y m : Nat) : Nat :=
  if m = 2 then (if isLeapYear y then 29 else 28)
  else if m = 4 ∨ m = 6 ∨ m = 9 ∨ m = 11 then 30
  else 31

/-- Rank of a civil date on the proleptic Gregorian day line (shifted-epoch
form of the standard days-from-civil computation; only used for ordering). -/
def daysFromCivil (y m d : Nat) : Nat :=
  let yAdj := if m ≤ 2 then y - 1 else y
  let era := yAdj / 400
  let yoe := yAdj % 400
  let mp := (m + 9) % 12
  let doy := (153 * mp + 2) / 5 + (d - 1)
  let doe := yoe * 365 + yoe / 4 - yoe / 100 + doy
  era * 146097 + doe

/-- Comparison key of a `datetime`: microseconds on a common line, with the
UTC offset subtracted for aware values. -/
def PyDateTime.key (t : PyDateTime) : Int :=
  (((daysFromCivil t.year t.month t.day : Int) * 86400
      + t.hour * 3600 + t.minute * 60 + t.second)
    - (t.tzMinutes.getD 0) * 60) * 1000000 + t.micro

/-- `a < b` on `datetime` values; mixing naive and aware raises `TypeError`. -/
def pyDTlt (a b : PyDateTime) : Except PyErr Bool :=
  if a.tzMinutes.isSome = b.tzMinutes.isSome then .ok (a.key < b.key)
  else .error .typeError

/-- `a > b` on `datetime` values. -/
def pyDTgt (a b : PyDateTime) : Except PyErr Bool := pyDTlt b a

/-- Consume one expected character. -/
def expectChar (c : Char) : List Char → Option (List Char)
  | c' :: rest => if c' = c then some rest else Option.none
  | [] => Option.none

/-- Consume exactly two digits. -/
def digit2 : List Char → Option (Nat × List Char)
  | a :: b :: rest =>
    if a.isDigit && b.isDigit then
      some ((a.toNat - 48) * 10 + (b.toNat - 48), rest)
    else Option.none
  | _ => Option.none

/-- Consume exactly four digits. -/
def digit4 (l : List Char) : Option (Nat × List Char) := do
  let (hi, l) ← digit2 l
  let (lo, l) ← digit2 l
  some (hi * 100 + lo, l)

/-- Parse the date part `YYYY-MM-DD` with calendar-valid fields. -/
def parseDatePart (l : List Char) : Option (Nat × Nat × Nat × List Char) := do
  let (y, l) ← digit4 l
  let l ← expectChar '-' l
  let (m, l) ← digit2 l
  let l ← expectChar '-' l
  let (d, l) ← digit2 l
  if 1 ≤ y ∧ 1 ≤ m ∧ m ≤ 12 ∧ 1 ≤ d ∧ d ≤ daysInMonth y m then
    some (y, m, d, l)
  else Option.none

/-- Parse an optional fractional-second part `.f{1,6}`, scaled to
microseconds; absent yields 0. -/
def parseFracPart : List Char → Option (Nat × List Char)
  | '.' :: rest =>
    let ds := rest.takeWhile Char.isDigit
    if 1 ≤ ds.length ∧ ds.length ≤ 6 then
      some (digitsToNat ds * 10 ^ (6 - ds.length), rest.drop ds.length)
    else Option.none
  | l => some (0, l)

/-- Parse a UTC offset `±HH:MM` (minutes, signed). -/
def parseTzPart (l : List Char) : Option (Int × List Char) := do
  match l with
  | sign :: rest =>
    if sign = '+' ∨ sign = '-' then do
      let (hh, r) ← digit2 rest
      let r ← expectChar ':' r
      let (mm, r) ← digit2 r
      if hh ≤ 23 ∧ mm ≤ 59 then
        let mins : Int := hh * 60 + mm
        some (if sign = '-' then -mins else mins, r)
      else Option.none
    else Option.none
  | [] => Option.none

/-- The `datetime.fromisoformat` model (see the section comment for the
accepted profile). -/
def fromisoformat (s : String) : Option PyDateTime := do
  let (y, m, d, rest) ← parseDatePart s.data
  match rest with
  | [] => some ⟨y, m, d, 0, 0, 0, 0, Option.none⟩
  | sep :: rest' =>
    if sep = 'T' ∨ sep = ' ' then do
      let (hh, r) ← digit2 rest'
      let r ← expectChar ':' r
      let (mi, r) ← digit2 r
      let r ← expectChar ':' r
      let (ss, r) ← digit2 r
      if hh ≤ 23 ∧ mi ≤ 59 ∧ ss ≤ 59 then do
        let (frac, r) ← parseFracPart r
        match r with
        | [] => some ⟨y, m, d, hh, mi, ss, frac, Option.none⟩
        | _ => do
          let (tz, r2) ← parseTzPart r
          if r2 = [] then some ⟨y, m, d, hh, mi, ss, frac, some tz⟩
          else Option.none
      else Option.none
    else Option.none

/-! ## Record Store: `data_writer.py` (`DataWriter`)

The store's observable state is the commits JSONL file: `Option.none` when the
file is absent, `some lines` for its ordered record lines.  `ioFail` models an
environment in which the open-for-append/touch of the file raises an `OSError`
(the validation steps run before any file operation). -/

structure StoreState where
  file : Option (List PyDict)
  ioFail : Bool
  deriving DecidableEq

namespace DataWriter

/-- `DataWriter._validate_commit_data`: the required-field set. -/
def requiredFields : List String := ["id", "hash", "author", "message", "timestamp", "changed_files"]

/-- The `for field in required_fields` loop: absence raises
`ValueError("Missing required field: ...")`, a `None` value raises
`ValueError("Field ... cannot be None")`. -/
def checkRequired (fs : List String) (d : PyDict) : Except PyErr Unit :=
  match fs with
  | [] => .ok ()
  | f :: rest =>
    match dictGet? d f with
    | Option.none => .error (.valueError ("Missing required field: " ++ f))
    | some v =>
      if v = PyVal.none then .error (.valueError ("Field " ++ f ++ " cannot be None"))
      else checkRequired rest d

/-- `not isinstance(commit_data['id'], str) or len(commit_data['id']) != 36`. -/
def checkId (d : PyDict) : Except PyErr Unit :=
  match dictGetKnown d "id" with
  | .str s => if s.data.length = 36 then .ok ()
              else .error (.valueError "Invalid ID format (should be UUID)")
  | _ => .error (.valueError "Invalid ID format (should be UUID)")

/-- `not isinstance(commit_data['hash'], str) or len(commit_data['hash']) < 7`. -/
def checkHash (d : PyDict) : Except PyErr Unit :=
  match dictGetKnown d "hash" with
  | .str s => if 7 ≤ s.data.length then .ok ()
              else .error (.valueError "Invalid commit hash format")
  | _ => .error (.valueError "Invalid commit hash format")

/-- `datetime.fromisoformat(commit_data['timestamp'].replace('Z', '+00:00'))`
inside a `try/except ValueError`; a non-string `timestamp` raises
`AttributeError` past the handler. -/
def checkTimestamp (d : PyDict) : Except PyErr Unit :=
  match pyStrOf (dictGetKnown d "timestamp") with
  | .error e => .error e
  | .ok ts =>
    match fromisoformat (pyReplaceZ ts) with
    | some _ => .ok ()
    | Option.none => .error (.valueError "Invalid timestamp format")

/-- `not isinstance(commit_data['changed_files'], list)`. -/
def checkChangedFiles (d : PyDict) : Except PyErr Unit :=
  match dictGetKnown d "changed_files" with
  | .list _ => .ok ()
  | _ => .error (.valueError "changed_files must be a list")

/-- `DataWriter._validate_commit_data` in full, in source order. -/
def validateCommitData (d : PyDict) : Except PyErr Unit :=
  match checkRequired requiredFields d with
  | .error e => .error e
  | .ok _ =>
    match checkId d with
    | .error e => .error e
    | .ok _ =>
      match checkHash d with
      | .error e => .error e
      | .ok _ =>
        match checkTimestamp d with
        | .error e => .error e
        | .ok _ => checkChangedFiles d

/-- Body of `DataWriter.write_commit` before its `except Exception` handler:
validate, ensure the file exists, append one line.  The file operations raise
when the environment fails them (`ioFail`), leaving the state unchanged. -/
def writeCommitE (st : StoreState) (d : PyDict) : Except PyErr StoreState :=
  match validateCommitData d with
  | .error e => .error e
  | .ok _ =>
    if st.ioFail then .error .osError
    else .ok { file := some ((st.file.getD []) ++ [d]), ioFail := st.ioFail }

/-- `DataWriter.write_commit`: the `except Exception` handler converts any
exception into the `handle_error` envelope and the state is left as it was. -/
def writeCommit (st : StoreState) (d : PyDict) : PyResult Unit × StoreState :=
  match writeCommitE st d with
  | .ok st' => (.success (), st')
  | .error e => (.error e, st)

/-- The read loop of `DataWriter.read_commits`: collect lines in file order,
breaking once `limit and len(commits) >= limit` holds (a limit of 0 is falsy
and reads everything; the model covers the non-negative limits). -/
def takeWithLimit (limit : Option Nat) (lines : List PyDict) : List PyDict :=
  match limit with
  | Option.none => lines
  | some k => if k = 0 then lines else lines.take k

/-- `DataWriter.read_commits`: missing file is an empty success; otherwise the
collected lines are reversed ("most recent first"). -/
def readCommits (st : StoreState) (limit : Option Nat) : PyResult (List PyDict) :=
  match st.file with
  | Option.none => .success []
  | some lines => .success (takeWithLimit limit lines).reverse

/-- Body of `DataWriter.get_commit_count`. -/
def getCommitCount (st : StoreState) : PyResult Nat :=
  match st.file with
  | Option.none => .success 0
  | some lines => .success lines.length

end DataWriter

/-- The search criteria dict: each key either absent/`None` (`Option.none`) or
a caller-supplied string.  `'k' in criteria and criteria['k']` is the truthiness
test on the entry. -/
structure Criteria where
  author : Option String
  message : Option String
  date_from : Option String
  date_to : Option String
  files : Option String
  deriving DecidableEq

/-- `'k' in criteria and criteria['k']`: present and truthy (non-empty). -/
def isSupplied : Option String → Bool
  | Option.none => false
  | some s => !(s = "")

namespace DataWriter

/-- The author clause of `_matches_criteria`:
`criteria['author'].lower() in commit.get('author', '').lower() or
 criteria['author'].lower() in commit.get('author_email', '').lower()`
(with Python's short-circuit `or`). -/
def authorMatch (c : PyDict) (needle : String) : Except PyErr Bool :=
  match pyLowerOf (dictGetD c "author" (PyVal.str "")) with
  | .error e => .error e
  | .ok ca =>
    if pyIn (pyLower needle) ca then .ok true
    else
      match pyLowerOf (dictGetD c "author_email" (PyVal.str "")) with
      | .error e => .error e
      | .ok ce => .ok (pyIn (pyLower needle) ce)

/-- The message clause:
`criteria['message'].lower() in commit.get('message', '').lower()`. -/
def messageMatch (c : PyDict) (needle : String) : Except PyErr Bool :=
  match pyLowerOf (dictGetD c "message" (PyVal.str "")) with
  | .error e => .error e
  | .ok cm => .ok (pyIn (pyLower needle) cm)

/-- The `date_from` clause: parse `commit.get('commit_date', '')` and the
bound inside a `try/except ValueError` — a parse failure passes the record
(fail-open); a non-string `commit_date` raises `AttributeError` past the
handler, and comparing naive with aware raises `TypeError` past it. -/
def dateFromMatch (c : PyDict) (bound : String) : Except PyErr Bool :=
  match pyStrOf (dictGetD c "commit_date" (PyVal.str "")) with
  | .error e => .error e
  | .ok cd =>
    match fromisoformat (pyReplaceZ cd) with
    | Option.none => .ok true
    | some cdt =>
      match fromisoformat (pyReplaceZ bound) with
      | Option.none => .ok true
      | some fdt =>
        match pyDTlt cdt fdt with
        | .error e => .error e
        | .ok lt => .ok (!lt)

/-- The `date_to` clause, symmetric to `date_from` with `>`. -/
def dateToMatch (c : PyDict) (bound : String) : Except PyErr Bool :=
  match pyStrOf (dictGetD c "commit_date" (PyVal.str "")) with
  | .error e => .error e
  | .ok cd =>
    match fromisoformat (pyReplaceZ cd) with
    | Option.none => .ok true
    | some cdt =>
      match fromisoformat (pyReplaceZ bound) with
      | Option.none => .ok true
      | some tdt =>
        match pyDTgt cdt tdt with
        | .error e => .error e
        | .ok gt => .ok (!gt)

/-- The files clause: `any(criteria['files'].lower() in file.lower() for file
in commit.get('changed_files', []))`, with the generator's early exit. -/
def filesAny (needle : String) : List String → Bool
  | [] => false
  | f :: rest => pyIn (pyLower needle) (pyLower f) || filesAny needle rest

/-- The files clause applied to the dynamically typed `changed_files` value. -/
def filesMatch (c : PyDict) (needle : String) : Except PyErr Bool :=
  match pyIterStrs (dictGetD c "changed_files" (PyVal.list [])) with
  | .error e => .error e
  | .ok fs => .ok (filesAny needle fs)

/-- One guarded clause of `_matches_criteria`: skipped (vacuously true) when
the criterion is absent or falsy. -/
def step (sel : Option String) (run : String → Except PyErr Bool) : Except PyErr Bool :=
  match sel with
  | Option.none => .ok true
  | some s => if s = "" then .ok true else run s

/-- The author clause as guarded in `_matches_criteria`. -/
def authorStep (c : PyDict) (crit : Criteria) : Except PyErr Bool :=
  step crit.author (authorMatch c)

/-- The message clause as guarded. -/
def messageStep (c : PyDict) (crit : Criteria) : Except PyErr Bool :=
  step crit.message (messageMatch c)

/-- The `date_from` clause as guarded. -/
def dateFromStep (c : PyDict) (crit : Criteria) : Except PyErr Bool :=
  step crit.date_from (dateFromMatch c)

/-- The `date_to` clause as guarded. -/
def dateToStep (c : PyDict) (crit : Criteria) : Except PyErr Bool :=
  step crit.date_to (dateToMatch c)

/-- The files clause as guarded. -/
def filesStep (c : PyDict) (crit : Criteria) : Except PyErr Bool :=
  step crit.files (filesMatch c)

/-- Sequential conjunction of the guarded clauses: a clause returning `False`
returns the record unmatched without evaluating the later clauses, exactly as
the early `return False` statements do. -/
def andSteps : List (Except PyErr Bool) → Except PyErr Bool
  | [] => .ok true
  | s :: rest =>
    match s with
    | .error e => .error e
    | .ok b => if b then andSteps rest else .ok false

/-- `DataWriter._matches_criteria`: the five clauses in source order. -/
def matchesCriteria (c : PyDict) (crit : Criteria) : Except PyErr Bool :=
  andSteps [authorStep c crit, messageStep c crit, dateFromStep c crit,
            dateToStep c crit, filesStep c crit]

/-- The scan loop of `search_commits`: keep the matching records in file
order; the first exception aborts the whole loop. -/
def searchLoop (crit : Criteria) : List PyDict → Except PyErr (List PyDict)
  | [] => .ok []
  | c :: rest =>
    match matchesCriteria c crit with
    | .error e => .error e
    | .ok m =>
      match searchLoop crit rest with
      | .error e => .error e
      | .ok ms => .ok (if m then c :: ms else ms)

/-- `DataWriter.search_commits`: missing file is an empty success; otherwise
the matches are reversed ("most recent first"), and any exception becomes the
`handle_error` envelope. -/
def searchCommits (st : StoreState) (crit : Criteria) : PyResult (List PyDict) :=
  match st.file with
  | Option.none => .success []
  | some lines =>
    match searchLoop crit lines with
    | .ok ms => .success ms.reverse
    | .error e => .error e

end DataWriter

/-! ## Extractor: `git_parser.py` (`GitParser`)

The subprocess layer is abstracted: the extraction outcome and the strings it
would parse are inputs.  The diff-statistics parser `_get_commit_stats` is
embedded in full, since it is pure text processing of the captured stdout. -/

namespace GitParser

/-- `int(''.join(filter(str.isdigit, part)))`: every digit of the clause,
concatenated; an empty digit string raises `ValueError`. -/
def intOfDigits (part : List Char) : Except PyErr Nat :=
  let ds := part.filter Char.isDigit
  if ds = [] then .error (.valueError "invalid literal for int()")
  else .ok (digitsToNat ds)

/-- The `for part in line.split(',')` loop of `_get_commit_stats`: a part
containing "insertions" sets the insertions counter, `elif` a part containing
"deletions" sets the deletions counter. -/
def statsFromLine (line : List Char) : Except PyErr (Nat × Nat) :=
  (splitOnChar ',' line).foldlM
    (fun (acc : Nat × Nat) part =>
      if containsSub part "insertions".data then
        match intOfDigits part with
        | .error e => .error e
        | .ok n => .ok (n, acc.2)
      else if containsSub part "deletions".data then
        match intOfDigits part with
        | .error e => .error e
        | .ok n => .ok (acc.1, n)
      else .ok acc)
    (0, 0)

/-- Does a line contain both the "insertions" and the "deletions" clause words
(the guard of the line loop)? -/
def lineHasBoth (line : List Char) : Bool :=
  containsSub line "insertions".data && containsSub line "deletions".data

/-- `GitParser._get_commit_stats` applied to the captured stats stdout: split
the stripped output into lines, process the first line containing both
"insertions" and "deletions" (`break` afterwards), and let the enclosing
`except Exception` turn any failure into the `{insertions: 0, deletions: 0}`
default. -/
def getCommitStats (statsOutput : String) : Nat × Nat :=
  let lines := splitOnChar '\n' (pyStrip statsOutput).data
  match lines.find? lineHasBoth with
  | Option.none => (0, 0)
  | some line =>
    match statsFromLine line with
    | .ok p => p
    | .error _ => (0, 0)

/-- The abstract Git environment a `GitParser` runs against: whether `.git`
exists and is a directory, and the outcome the extraction pipeline
(`get_latest_commit`) would produce together with the subprocess commands it
would issue (`git rev-parse HEAD` always runs first). -/
structure GitEnv where
  gitDirExists : Bool
  gitDirIsDir : Bool
  extraction : Except PyErr PyDict
  extraCmds : List (List String)
  freshId : String
  captureTime : String

/-- `GitParser.is_git_repository`: `self.git_dir.exists() and
self.git_dir.is_dir()`. -/
def isGitRepository (env : GitEnv) : Bool :=
  env.gitDirExists && env.gitDirIsDir

/-- The subprocess invocations `get_latest_commit` performs when called. -/
def extractionTrace (env : GitEnv) : List (List String) :=
  ["rev-parse", "HEAD"] :: env.extraCmds

end GitParser

/-! ## Orchestrator: `commit_tracker.py` (`CommitTracker`) -/

namespace CommitTracker

/-- `CommitTracker._validate_commit_data`: its own required-field set (no
`id`). -/
def trackerRequiredFields : List String := ["hash", "author", "message", "timestamp", "changed_files"]

/-- `if field not in commit_data or commit_data[field] is None: raise`. -/
def trackerCheckRequired (fs : List String) (d : PyDict) : Except PyErr Unit :=
  match fs with
  | [] => .ok ()
  | f :: rest =>
    match dictGet? d f with
    | Option.none => .error (.valueError ("Missing required field: " ++ f))
    | some v =>
      if v = PyVal.none then .error (.valueError ("Missing required field: " ++ f))
      else trackerCheckRequired rest d

/-- `CommitTracker._validate_commit_data`: required fields, then
`len(commit_data['hash']) < 7` (no `isinstance` check — `len` itself raises
`TypeError` on unsized values), then the same timestamp parse as the store. -/
def trackerValidate (d : PyDict) : Except PyErr Unit :=
  match trackerCheckRequired trackerRequiredFields d with
  | .error e => .error e
  | .ok _ =>
    match pyLen (dictGetKnown d "hash") with
    | .error e => .error e
    | .ok n =>
      if n < 7 then .error (.valueError "Invalid commit hash format")
      else
        match pyStrOf (dictGetKnown d "timestamp") with
        | .error e => .error e
        | .ok ts =>
          match fromisoformat (pyReplaceZ ts) with
          | some _ => .ok ()
          | Option.none => .error (.valueError "Invalid timestamp format")

/-- The identity-stamping step of `log_latest_commit`:
`commit_data['id'] = str(uuid.uuid4());
 commit_data['timestamp'] = datetime.now(timezone.utc).isoformat()`. -/
def stampCommit (env : GitParser.GitEnv) (cd : PyDict) : PyDict :=
  dictSet (dictSet cd "id" (PyVal.str env.freshId)) "timestamp" (PyVal.str env.captureTime)

/-- Body of `CommitTracker.log_latest_commit` before its `except Exception`
handler: repository check (raising `GitRepositoryError`), extraction, identity
stamping, the tracker's own validation, then `self.data_writer.write_commit(
commit_data)` — whose returned result dict the source discards. -/
def logLatestCommitE (env : GitParser.GitEnv) (st : StoreState) :
    Except PyErr (PyDict × StoreState) × List (List String) :=
  if !(GitParser.isGitRepository env) then
    (.error (.gitRepositoryError "No Git repository found"), [])
  else
    match env.extraction with
    | .error e => (.error e, GitParser.extractionTrace env)
    | .ok cd =>
      let cd := stampCommit env cd
      match trackerValidate cd with
      | .error e => (.error e, GitParser.extractionTrace env)
      | .ok _ =>
        (.ok (cd, (DataWriter.writeCommit st cd).2), GitParser.extractionTrace env)

/-- `CommitTracker.log_latest_commit`: the boundary handler converts any
exception into the `handle_error` envelope; a success returns the (stamped)
commit data.  The third component records the Git subprocess invocations. -/
def logLatestCommit (env : GitParser.GitEnv) (st : StoreState) :
    PyResult PyDict × StoreState × List (List String) :=
  match logLatestCommitE env st with
  | (.ok (cd, st'), trace) => (.success cd, st', trace)
  | (.error e, trace) => (.error e, st, trace)

end CommitTracker

/-! ## Derived notions used by the statements -/

/-- Did an `Except` computation finish without a Python exception? -/
def exIsOk {α : Type} : Except PyErr α → Bool
  | .ok _ => true
  | .error _ => false

/-- Every clause of `_matches_criteria` evaluates without an exception on this
record (the implicit well-formedness the search claims presuppose; a record
violating it is the subject of the null-`commit_date` claim instead). -/
def stepsOk (c : PyDict) (crit : Criteria) : Bool :=
  exIsOk (DataWriter.authorStep c crit) && exIsOk (DataWriter.messageStep c crit) &&
  exIsOk (DataWriter.dateFromStep c crit) && exIsOk (DataWriter.dateToStep c crit) &&
  exIsOk (DataWriter.filesStep c crit)

/-- The criteria object restricted to its author predicate. -/
def Criteria.authorOnly (crit : Criteria) : Criteria :=
  ⟨crit.author, Option.none, Option.none, Option.none, Option.none⟩

/-- The criteria object restricted to its message predicate. -/
def Criteria.messageOnly (crit : Criteria) : Criteria :=
  ⟨Option.none, crit.message, Option.none, Option.none, Option.none⟩

/-- The criteria object restricted to its `date_from` predicate. -/
def Criteria.dateFromOnly (crit : Criteria) : Criteria :=
  ⟨Option.none, Option.none, crit.date_from, Option.none, Option.none⟩

/-- The criteria object restricted to its `date_to` predicate. -/
def Criteria.dateToOnly (crit : Criteria) : Criteria :=
  ⟨Option.none, Option.none, Option.none, crit.date_to, Option.none⟩

/-- The criteria object restricted to its files predicate. -/
def Criteria.filesOnly (crit : Criteria) : Criteria :=
  ⟨Option.none, Option.none, Option.none, Option.none, crit.files⟩

/-- The criteria object with its two date predicates removed. -/
def Criteria.withoutDates (crit : Criteria) : Criteria :=
  ⟨crit.author, crit.message, Option.none, Option.none, crit.files⟩

/-- Append a sequence of records through `write_commit`, in order. -/
def appendAll (st : StoreState) (rs : List PyDict) : StoreState :=
  rs.foldl (fun s r => (DataWriter.writeCommit s r).2) st

/-- The records of a successful read/search result (empty on an error
envelope). -/
def resultList (r : PyResult (List PyDict)) : List PyDict :=
  match r with
  | .success l => l
  | .error _ => []

/-! ## Concrete sample data for the closed statements -/

/-- A fully valid record as the Orchestrator would persist it. -/
def recMain : PyDict :=
  [("id", PyVal.str "aaaaaaaa-bbbb-cccc-dddd-eeeeeeeeeee1"),
   ("hash", PyVal.str "abc1234def4567"),
   ("author", PyVal.str "John Doe"),
   ("author_email", PyVal.str "john@example.com"),
   ("message", PyVal.str "Fix bug"),
   ("timestamp", PyVal.str "2024-01-15T10:00:00+00:00"),
   ("commit_date", PyVal.str "2024-01-10T09:00:00+00:00"),
   ("changed_files", PyVal.list ["src/app.py"])]

/-- A second valid record, appended after `recMain`. -/
def recSecond : PyDict :=
  [("id", PyVal.str "aaaaaaaa-bbbb-cccc-dddd-eeeeeeeeeee2"),
   ("hash", PyVal.str "fed4321cba7654"),
   ("author", PyVal.str "Jane Smith"),
   ("author_email", PyVal.str "jane@example.com"),
   ("message", PyVal.str "Add feature"),
   ("timestamp", PyVal.str "2024-01-16T10:00:00+00:00"),
   ("commit_date", PyVal.str "2024-01-11T09:00:00+00:00"),
   ("changed_files", PyVal.list ["src/lib.py"])]

/-- `recMain` with a `commit_date` that does not parse. -/
def recBadDate : PyDict := dictSet recMain "commit_date" (PyVal.str "not-a-date")

/-- `recMain` with an explicit `None` `commit_date`. -/
def recNullDate : PyDict := dictSet recMain "commit_date" PyVal.none

/-- `recMain` with an `id` that is not 36 characters long. -/
def recShortId : PyDict := dictSet recMain "id" (PyVal.str "short-id")

/-- An extraction result as `get_latest_commit` returns it (no `id`/`timestamp`
yet). -/
def extractedRec : PyDict :=
  [("hash", PyVal.str "abc1234def4567"),
   ("author", PyVal.str "John Doe"),
   ("author_email", PyVal.str "john@example.com"),
   ("commit_date", PyVal.str "2024-01-10T09:00:00+00:00"),
   ("message", PyVal.str "Fix bug"),
   ("body", PyVal.str ""),
   ("changed_files", PyVal.list ["src/app.py"])]

/-- A healthy Git environment whose extraction succeeds. -/
def envOk : GitParser.GitEnv :=
  ⟨true, true, .ok extractedRec, [["show", "--no-patch"]],
   "aaaaaaaa-bbbb-cccc-dddd-eeeeeeeeeee9", "2024-01-15T10:00:00+00:00"⟩

/-- A directory without a `.git` metadata directory. -/
def envNoRepo : GitParser.GitEnv :=
  ⟨false, false, .error (.gitCommandError "unused"), [], "unused", "unused"⟩

/-- Criteria selecting author "john" and message "bug". -/
def critJohnBug : Criteria :=
  ⟨some "John", some "bug", Option.none, Option.none, Option.none⟩

/-- Criteria with both date bounds. -/
def critDates : Criteria :=
  ⟨Option.none, Option.none, some "2024-01-01T00:00:00+00:00",
   some "2024-12-31T00:00:00+00:00", Option.none⟩

/-- Criteria with an author predicate that `recNullDate` fails, plus a
`date_from` bound. -/
def critMissAuthorWithDate : Criteria :=
  ⟨some "zzz", Option.none, some "2024-01-01T00:00:00+00:00", Option.none, Option.none⟩

/-! # Theorems

First a lemma layer characterising the Store's validation and write/search
behaviour, then one theorem per spec claim. -/

namespace DataWriter

theorem checkRequired_ok_iff (fs : List String) (d : PyDict) :
    checkRequired fs d = Except.ok () ↔
      ∀ f ∈ fs, ∃ v, dictGet? d f = some v ∧ v ≠ PyVal.none := by
  induction fs with
  | nil => simp [checkRequired]
  | cons f rest ih =>
    simp only [checkRequired, List.forall_mem_cons]
    cases h : dictGet? d f with
    | none =>
      simp only [h]
      constructor
      · intro hc; cases hc
      · rintro ⟨⟨v, hv, _⟩, _⟩; cases hv
    | some v =>
      by_cases hv : v = PyVal.none
      · subst hv
        simp only [h, if_pos rfl]
        constructor
        · intro hc; cases hc
        · rintro ⟨⟨w, hw, hne⟩, _⟩
          exact absurd (Option.some_injective _ hw).symm hne
      · simp only [h, if_neg hv, ih]
        constructor
        · intro hrest; exact ⟨⟨v, rfl, hv⟩, hrest⟩
        · rintro ⟨_, hrest⟩; exact hrest

theorem checkId_ok_iff (d : PyDict) :
    checkId d = Except.ok () ↔
      ∃ s, dictGetKnown d "id" = PyVal.str s ∧ s.data.length = 36 := by
  unfold checkId
  cases h : dictGetKnown d "id" <;> simp only [h]
  case str s =>
    by_cases h36 : s.data.length = 36
    · simp only [if_pos h36]
      exact ⟨fun _ => ⟨s, rfl, h36⟩, fun _ => trivial⟩
    · simp only [if_neg h36]
      constructor
      · intro hc; cases hc
      · rintro ⟨t, ht, h36'⟩
        cases ht
        exact absurd h36' h36
  all_goals
    constructor
    · intro hc; cases hc
    · rintro ⟨t, ht, _⟩; cases ht

theorem checkHash_ok_iff (d : PyDict) :
    checkHash d = Except.ok () ↔
      ∃ s, dictGetKnown d "hash" = PyVal.str s ∧ 7 ≤ s.data.length := by
  unfold checkHash
  cases h : dictGetKnown d "hash" <;> simp only [h]
  case str s =>
    by_cases h7 : 7 ≤ s.data.length
    · simp only [if_pos h7]
      exact ⟨fun _ => ⟨s, rfl, h7⟩, fun _ => trivial⟩
    · simp only [if_neg h7]
      constructor
      · intro hc; cases hc
      · rintro ⟨t, ht, h7'⟩
        cases ht
        exact absurd h7' h7
  all_goals
    constructor
    · intro hc; cases hc
    · rintro ⟨t, ht, _⟩; cases ht

theorem checkTimestamp_ok_iff (d : PyDict) :
    checkTimestamp d = Except.ok () ↔
      ∃ s, dictGetKnown d "timestamp" = PyVal.str s ∧
        (fromisoformat (pyReplaceZ s)).isSome = true := by
  unfold checkTimestamp pyStrOf
  cases h : dictGetKnown d "timestamp" <;> simp only [h]
  case str s =>
    cases hp : fromisoformat (pyReplaceZ s) <;> simp only [hp]
    · constructor
      · intro hc; cases hc
      · rintro ⟨t, ht, hsome⟩
        cases ht
        rw [hp] at hsome
        cases hsome
    · constructor
      · intro _; exact ⟨s, rfl, by rw [hp]; rfl⟩
      · intro _; trivial
  all_goals
    constructor
    · intro hc; cases hc
    · rintro ⟨t, ht, _⟩; cases ht

theorem checkChangedFiles_ok_iff (d : PyDict) :
    checkChangedFiles d = Except.ok () ↔
      ∃ xs, dictGetKnown d "changed_files" = PyVal.list xs := by
  unfold checkChangedFiles
  cases h : dictGetKnown d "changed_files" <;> simp only [h]
  case list xs => simp
  all_goals
    constructor
    · intro hc; cases hc
    · rintro ⟨t, ht⟩; cases ht

theorem validateCommitData_ok_iff (d : PyDict) :
    validateCommitData d = Except.ok () ↔
      checkRequired requiredFields d = Except.ok () ∧ checkId d = Except.ok () ∧
      checkHash d = Except.ok () ∧ checkTimestamp d = Except.ok () ∧
      checkChangedFiles d = Except.ok () := by
  unfold validateCommitData
  cases h1 : checkRequired requiredFields d <;> simp only [h1]
  case error => simp
  cases h2 : checkId d <;> simp only [h2]
  case error => simp
  cases h3 : checkHash d <;> simp only [h3]
  case error => simp
  cases h4 : checkTimestamp d <;> simp only [h4]
  case error => simp
  simp

theorem writeCommit_invalid (st : StoreState) (d : PyDict)
    (h : validateCommitData d ≠ Except.ok ()) :
    (writeCommit st d).1.status = "error" ∧ (writeCommit st d).2 = st := by
  cases hv : validateCommitData d with
  | ok u => cases u; exact absurd hv h
  | error e =>
    unfold writeCommit writeCommitE
    rw [hv]
    exact ⟨rfl, rfl⟩

theorem writeCommit_valid (st : StoreState) (d : PyDict)
    (h : validateCommitData d = Except.ok ()) (hio : st.ioFail = false) :
    writeCommit st d = (.success (), ⟨some (st.file.getD [] ++ [d]), false⟩) := by
  unfold writeCommit writeCommitE
  rw [h, hio]
  rfl

end DataWriter

theorem appendAll_valid (rs : List PyDict) (l : List PyDict)
    (hv : ∀ r ∈ rs, DataWriter.validateCommitData r = Except.ok ()) :
    appendAll ⟨some l, false⟩ rs = ⟨some (l ++ rs), false⟩ := by
  induction rs generalizing l with
  | nil => simp [appendAll]
  | cons r rest ih =>
    have hr : (DataWriter.writeCommit ⟨some l, false⟩ r).2 = ⟨some (l ++ [r]), false⟩ := by
      rw [DataWriter.writeCommit_valid _ _ (hv r (by simp)) rfl]
      rfl
    have hrest := ih (l ++ [r]) (fun x hx => hv x (by simp [hx]))
    unfold appendAll at hrest ⊢
    simp only [List.foldl_cons]
    rw [hr, hrest]
    simp

/-- **C1 (counterexample).** Two distinct valid records appended in order
`recMain, recSecond`; `ReadAll(limit=1)` returns `[recMain]` — the *first*
line of the file — where the claim predicts `[recSecond]`, the most recently
appended record. -/
theorem c1_counterexample :
    (appendAll ⟨Option.none, false⟩ [recMain, recSecond]).file
        = some [recMain, recSecond] ∧
    DataWriter.readCommits (appendAll ⟨Option.none, false⟩ [recMain, recSecond]) (some 1)
        = PyResult.success [recMain] ∧
    recMain ≠ recSecond :=
  ⟨rfl, rfl, by decide⟩

/-- **C1 (amended).** For `n` successfully appended records `r1..rn` (in that
order), `ReadAll()` returns `[rn, ..., r1]`; `ReadAll(limit=k)` with
`1 ≤ k` returns `[rk, ..., r1]` — the first `k` lines of the file in reversed
order (the `k` *earliest*-appended records, most-recent-first among
themselves), not the `k` most-recently-appended records. -/
theorem c1_readAll_order (rs : List PyDict) (k : Nat)
    (hv : ∀ r ∈ rs, DataWriter.validateCommitData r = Except.ok ()) (hk : 1 ≤ k) :
    DataWriter.readCommits (appendAll ⟨Option.none, false⟩ rs) Option.none
        = PyResult.success rs.reverse ∧
    DataWriter.readCommits (appendAll ⟨Option.none, false⟩ rs) (some k)
        = PyResult.success ((rs.take k).reverse) := by
  cases rs with
  | nil => exact ⟨rfl, by simp [appendAll, DataWriter.readCommits]⟩
  | cons r rest =>
    have h1 : appendAll ⟨Option.none, false⟩ (r :: rest) = ⟨some (r :: rest), false⟩ := by
      have hr : (DataWriter.writeCommit ⟨Option.none, false⟩ r).2 = ⟨some [r], false⟩ := by
        rw [DataWriter.writeCommit_valid _ _ (hv r (by simp)) rfl]
        rfl
      have hrest := appendAll_valid rest [r] (fun x hx => hv x (by simp [hx]))
      unfold appendAll at hrest ⊢
      simp only [List.foldl_cons]
      rw [hr, hrest]
      simp
    rw [h1]
    unfold DataWriter.readCommits DataWriter.takeWithLimit
    have hk0 : ¬k = 0 := by omega
    simp [hk0]

theorem c1_readAll_order_witness :
    DataWriter.readCommits (appendAll ⟨Option.none, false⟩ [recMain, recSecond]) Option.none
        = PyResult.success [recSecond, recMain] ∧
    DataWriter.readCommits (appendAll ⟨Option.none, false⟩ [recMain, recSecond]) (some 1)
        = PyResult.success [recMain] := by
  have h := c1_readAll_order [recMain, recSecond] 1 (by decide) (by decide)
  simpa using h

/-- **C3.** Appending a record with a required field absent or explicitly
null, or with a hash string shorter than 7 characters, or with a non-list
`changed_files`, yields the validation-error envelope and leaves the persisted
log exactly as it was (no line written, no file created). -/
theorem c3_validation_totality (st : StoreState) (r : PyDict)
    (h : (∃ f ∈ DataWriter.requiredFields,
            dictGet? r f = Option.none ∨ dictGet? r f = some PyVal.none)
       ∨ (∃ s, dictGet? r "hash" = some (PyVal.str s) ∧ s.data.length < 7)
       ∨ (∃ v, dictGet? r "changed_files" = some v ∧ ∀ xs, v ≠ PyVal.list xs)) :
    (DataWriter.writeCommit st r).1.status = "error" ∧
    (DataWriter.writeCommit st r).2 = st := by
  apply DataWriter.writeCommit_invalid
  intro hok
  rw [DataWriter.validateCommitData_ok_iff] at hok
  obtain ⟨hreq, _, hhash, _, hcf⟩ := hok
  rw [DataWriter.checkRequired_ok_iff] at hreq
  rw [DataWriter.checkHash_ok_iff] at hhash
  rw [DataWriter.checkChangedFiles_ok_iff] at hcf
  rcases h with ⟨f, hf, hbad⟩ | ⟨s, hs, hlen⟩ | ⟨v, hv, hnl⟩
  · obtain ⟨w, hw, hne⟩ := hreq f hf
    rcases hbad with hb | hb
    · rw [hb] at hw; cases hw
    · rw [hb] at hw; exact hne (Option.some_injective _ hw).symm
  · obtain ⟨t, ht, h7⟩ := hhash
    unfold dictGetKnown at ht
    rw [hs] at ht
    simp only [Option.getD_some] at ht
    cases ht
    omega
  · obtain ⟨xs, hxs⟩ := hcf
    unfold dictGetKnown at hxs
    rw [hv] at hxs
    simp only [Option.getD_some] at hxs
    exact hnl xs hxs

theorem c3_witness :
    (DataWriter.writeCommit ⟨some [recMain], false⟩ []).1.status = "error" ∧
    (DataWriter.writeCommit ⟨some [recMain], false⟩ []).2 = ⟨some [recMain], false⟩ :=
  c3_validation_totality ⟨some [recMain], false⟩ []
    (Or.inl ⟨"id", by decide, Or.inl rfl⟩)

/-- **C9.** The Store's validation additionally requires `id` to be a string
of length exactly 36: a record meeting every spec-listed invariant (required
fields present and non-null, hash a string of length ≥ 7, parseable
`timestamp`, `changed_files` a list) but whose `id` is not a 36-character
string is rejected and nothing is written. -/
theorem c9_uuid_length_check (st : StoreState) (r : PyDict)
    (_hreq : ∀ f ∈ DataWriter.requiredFields, ∃ v, dictGet? r f = some v ∧ v ≠ PyVal.none)
    (_hhash : ∃ s, dictGetKnown r "hash" = PyVal.str s ∧ 7 ≤ s.data.length)
    (_hts : ∃ s, dictGetKnown r "timestamp" = PyVal.str s ∧
            (fromisoformat (pyReplaceZ s)).isSome = true)
    (_hcf : ∃ xs, dictGetKnown r "changed_files" = PyVal.list xs)
    (hid : ∀ s, dictGetKnown r "id" = PyVal.str s → s.data.length ≠ 36) :
    (DataWriter.writeCommit st r).1.status = "error" ∧
    (DataWriter.writeCommit st r).2 = st := by
  apply DataWriter.writeCommit_invalid
  intro hok
  rw [DataWriter.validateCommitData_ok_iff] at hok
  obtain ⟨_, hidok, _, _, _⟩ := hok
  rw [DataWriter.checkId_ok_iff] at hidok
  obtain ⟨s, hs, h36⟩ := hidok
  exact hid s hs h36

theorem c9_witness :
    (DataWriter.writeCommit ⟨Option.none, false⟩ recShortId).1.status = "error" ∧
    (DataWriter.writeCommit ⟨Option.none, false⟩ recShortId).2 = ⟨Option.none, false⟩ :=
  c9_uuid_length_check ⟨Option.none, false⟩ recShortId (by decide)
    ⟨"abc1234def4567", rfl, by decide⟩
    ⟨"2024-01-15T10:00:00+00:00", rfl, rfl⟩
    ⟨["src/app.py"], rfl⟩
    (fun s hs => by
      have h : PyVal.str "short-id" = PyVal.str s := hs
      cases h
      decide)

theorem dictGet?_dictSet_ne (d : PyDict) (k k' : String) (v : PyVal) (h : k ≠ k') :
    dictGet? (dictSet d k v) k' = dictGet? d k' := by
  induction d with
  | nil => simp [dictSet, dictGet?, h]
  | cons p rest ih =>
    obtain ⟨k0, v0⟩ := p
    by_cases hk : k0 = k
    · subst hk
      simp [dictSet, dictGet?, h]
    · by_cases hk' : k0 = k'
      · subst hk'
        simp [dictSet, dictGet?, hk]
      · simp [dictSet, dictGet?, hk, hk', ih]

theorem checkRequired_congr (fs : List String) (d d' : PyDict)
    (h : ∀ f ∈ fs, dictGet? d f = dictGet? d' f) :
    DataWriter.checkRequired fs d = DataWriter.checkRequired fs d' := by
  induction fs with
  | nil => rfl
  | cons f rest ih =>
    unfold DataWriter.checkRequired
    rw [h f (by simp)]
    cases dictGet? d' f with
    | none => rfl
    | some v =>
      by_cases hv : v = PyVal.none
      · simp [hv]
      · simp only [if_neg hv]
        exact ih (fun g hg => h g (by simp [hg]))

/-- **C4 (counterexample).** A record whose `commit_date` does not parse as a
point-in-time value (every other invariant satisfied) is *accepted* by
`Append` and written to the log — the claim predicts a `ValidationFailed`
rejection. -/
theorem c4_counterexample :
    fromisoformat (pyReplaceZ "not-a-date") = Option.none ∧
    dictGet? recBadDate "commit_date" = some (PyVal.str "not-a-date") ∧
    DataWriter.writeCommit ⟨Option.none, false⟩ recBadDate
        = (PyResult.success (), ⟨some [recBadDate], false⟩) :=
  ⟨rfl, rfl, rfl⟩

/-- **C4 (amended).** `Append` validates only `timestamp` for parseability;
`commit_date` is never examined by the Store's validation: replacing the
`commit_date` field of any record by any value whatsoever leaves the
validation outcome unchanged. -/
theorem c4_commit_date_never_validated (r : PyDict) (v : PyVal) :
    DataWriter.validateCommitData (dictSet r "commit_date" v)
        = DataWriter.validateCommitData r := by
  have hget : ∀ k : String, ¬k = "commit_date" →
      dictGetKnown (dictSet r "commit_date" v) k = dictGetKnown r k := by
    intro k hk
    unfold dictGetKnown
    rw [dictGet?_dictSet_ne r "commit_date" k v (fun he => hk he.symm)]
  have hreq : DataWriter.checkRequired DataWriter.requiredFields (dictSet r "commit_date" v)
      = DataWriter.checkRequired DataWriter.requiredFields r := by
    apply checkRequired_congr
    intro f hf
    have hne : ¬f = "commit_date" := by
      fin_cases hf <;> decide
    exact dictGet?_dictSet_ne r "commit_date" f v (fun he => hne he.symm)
  have hid : DataWriter.checkId (dictSet r "commit_date" v) = DataWriter.checkId r := by
    unfold DataWriter.checkId
    rw [hget "id" (by decide)]
  have hhash : DataWriter.checkHash (dictSet r "commit_date" v) = DataWriter.checkHash r := by
    unfold DataWriter.checkHash
    rw [hget "hash" (by decide)]
  have hts : DataWriter.checkTimestamp (dictSet r "commit_date" v)
      = DataWriter.checkTimestamp r := by
    unfold DataWriter.checkTimestamp
    rw [hget "timestamp" (by decide)]
  have hcf : DataWriter.checkChangedFiles (dictSet r "commit_date" v)
      = DataWriter.checkChangedFiles r := by
    unfold DataWriter.checkChangedFiles
    rw [hget "changed_files" (by decide)]
  unfold DataWriter.validateCommitData
  rw [hreq, hid, hhash, hts, hcf]

/-- **C5 (counterexample).** A stats output whose only line contains an
insertions clause but no deletions clause: the claim predicts insertions = 2
(and deletions defaulting to 0), but the line guard requires *both* clause
words, so the line is skipped and both counters stay 0. -/
theorem c5_counterexample :
    GitParser.getCommitStats " 1 file changed, 2 insertions(+)" = (0, 0) ∧
    ¬GitParser.getCommitStats " 1 file changed, 2 insertions(+)" = (2, 0) :=
  ⟨rfl, by decide⟩

/-- **C5 (amended).** The stats parser only processes a line containing both
the "insertions" and the "deletions" clause words: if no line of the stripped
output contains both, both counters default to 0 with no error — in
particular an output with exactly one clause present yields (0, 0); when both
clauses are present in one line, each clause's integer is extracted
independently. -/
theorem c5_stats_needs_both_clauses :
    (∀ s : String,
      (∀ l ∈ splitOnChar '\n' (pyStrip s).data, GitParser.lineHasBoth l = false) →
      GitParser.getCommitStats s = (0, 0)) ∧
    GitParser.getCommitStats " 2 files changed, 10 insertions(+), 5 deletions(-)" = (10, 5) := by
  constructor
  · intro s h
    have hnone : (splitOnChar '\n' (pyStrip s).data).find? GitParser.lineHasBoth
        = Option.none := by
      rw [List.find?_eq_none]
      intro x hx
      rw [h x hx]
      exact Bool.false_ne_true
    show (match (splitOnChar '\n' (pyStrip s).data).find? GitParser.lineHasBoth with
          | Option.none => ((0 : Nat), (0 : Nat))
          | some line =>
            match GitParser.statsFromLine line with
            | Except.ok p => p
            | Except.error _ => (0, 0)) = (0, 0)
    rw [hnone]
  · rfl

theorem c5_stats_needs_both_clauses_witness :
    GitParser.getCommitStats " 1 file changed, 2 insertions(+)" = (0, 0) ∧
    GitParser.getCommitStats "" = (0, 0) :=
  ⟨c5_stats_needs_both_clauses.1 " 1 file changed, 2 insertions(+)" (by decide),
   c5_stats_needs_both_clauses.1 "" (by decide)⟩

/-- **C7.** A stored record whose `commit_date` is a string that fails to
parse satisfies both date predicates (fail-open): the `date_from` and
`date_to` clauses both return True, and the record matches the full criteria
exactly when it matches the criteria with the date predicates removed — it is
excluded only by failing one of the other supplied predicates. -/
theorem c7_date_fail_open (c : PyDict) (crit : Criteria) (s : String)
    (hcd : dictGetD c "commit_date" (PyVal.str "") = PyVal.str s)
    (hparse : fromisoformat (pyReplaceZ s) = Option.none) :
    DataWriter.dateFromStep c crit = Except.ok true ∧
    DataWriter.dateToStep c crit = Except.ok true ∧
    DataWriter.matchesCriteria c crit = DataWriter.matchesCriteria c crit.withoutDates := by
  have hfrom : ∀ bound, DataWriter.dateFromMatch c bound = Except.ok true := fun bound => by
    simp [DataWriter.dateFromMatch, hcd, pyStrOf, hparse]
  have hto : ∀ bound, DataWriter.dateToMatch c bound = Except.ok true := fun bound => by
    simp [DataWriter.dateToMatch, hcd, pyStrOf, hparse]
  have hdf : DataWriter.dateFromStep c crit = Except.ok true := by
    unfold DataWriter.dateFromStep DataWriter.step
    cases crit.date_from with
    | none => rfl
    | some b => by_cases hb : b = "" <;> simp [hb, hfrom]
  have hdt : DataWriter.dateToStep c crit = Except.ok true := by
    unfold DataWriter.dateToStep DataWriter.step
    cases crit.date_to with
    | none => rfl
    | some b => by_cases hb : b = "" <;> simp [hb, hto]
  refine ⟨hdf, hdt, ?_⟩
  show DataWriter.andSteps [DataWriter.authorStep c crit, DataWriter.messageStep c crit,
        DataWriter.dateFromStep c crit, DataWriter.dateToStep c crit,
        DataWriter.filesStep c crit]
      = DataWriter.andSteps [DataWriter.authorStep c crit, DataWriter.messageStep c crit,
        Except.ok true, Except.ok true, DataWriter.filesStep c crit]
  rw [hdf, hdt]

theorem c7_witness :
    DataWriter.dateFromStep recBadDate critDates = Except.ok true ∧
    DataWriter.dateToStep recBadDate critDates = Except.ok true ∧
    DataWriter.matchesCriteria recBadDate critDates
      = DataWriter.matchesCriteria recBadDate critDates.withoutDates :=
  c7_date_fail_open recBadDate critDates "not-a-date" rfl rfl

/-- **C8.** Against a directory lacking the `.git` metadata directory,
`is_git_repository` returns false, and `log_latest_commit` returns an error
envelope while the Git subprocess trace stays empty — the extraction
subprocess is never invoked on this path. -/
theorem c8_missing_repository (env : GitParser.GitEnv) (st : StoreState)
    (h : env.gitDirExists = false) :
    GitParser.isGitRepository env = false ∧
    (CommitTracker.logLatestCommit env st).1.status = "error" ∧
    (CommitTracker.logLatestCommit env st).2.2 = [] := by
  have hrep : GitParser.isGitRepository env = false := by
    unfold GitParser.isGitRepository
    rw [h]
    rfl
  refine ⟨hrep, ?_, ?_⟩ <;>
  · unfold CommitTracker.logLatestCommit CommitTracker.logLatestCommitE
    rw [hrep]
    rfl

theorem c8_witness :
    GitParser.isGitRepository envNoRepo = false ∧
    (CommitTracker.logLatestCommit envNoRepo ⟨Option.none, false⟩).1.status = "error" ∧
    (CommitTracker.logLatestCommit envNoRepo ⟨Option.none, false⟩).2.2 = [] :=
  c8_missing_repository envNoRepo ⟨Option.none, false⟩ rfl

/-! ## Search semantics lemmas -/

/-- A record matched without exception: the Bool the filter view of the scan
uses. -/
def matchesB (c : PyDict) (crit : Criteria) : Bool :=
  match DataWriter.matchesCriteria c crit with
  | .ok b => b
  | .error _ => false

theorem andSteps_cons_ok_true (rest : List (Except PyErr Bool)) :
    DataWriter.andSteps (Except.ok true :: rest) = DataWriter.andSteps rest := rfl

theorem andSteps_cons_err (e : PyErr) (rest : List (Except PyErr Bool)) :
    DataWriter.andSteps (Except.error e :: rest) = Except.error e := rfl

theorem andSteps_isOk (ss : List (Except PyErr Bool))
    (h : ∀ s ∈ ss, exIsOk s = true) : exIsOk (DataWriter.andSteps ss) = true := by
  induction ss with
  | nil => rfl
  | cons s rest ih =>
    have hs := h s (by simp)
    cases s with
    | error e => exact absurd hs (by simp [exIsOk])
    | ok b =>
      cases b
      · rfl
      · rw [andSteps_cons_ok_true]
        exact ih (fun x hx => h x (by simp [hx]))

theorem andSteps_ok_true_iff (ss : List (Except PyErr Bool))
    (h : ∀ s ∈ ss, exIsOk s = true) :
    DataWriter.andSteps ss = Except.ok true ↔ ∀ s ∈ ss, s = Except.ok true := by
  induction ss with
  | nil => simp [DataWriter.andSteps]
  | cons s rest ih =>
    have hs := h s (by simp)
    cases s with
    | error e => exact absurd hs (by simp [exIsOk])
    | ok b =>
      cases b
      · constructor
        · intro hc; cases hc
        · intro hall
          have := hall (Except.ok false) (by simp)
          cases this
      · rw [andSteps_cons_ok_true, ih (fun x hx => h x (by simp [hx]))]
        simp

theorem stepsOk_spread (c : PyDict) (crit : Criteria) (h : stepsOk c crit = true) :
    exIsOk (DataWriter.authorStep c crit) = true ∧
    exIsOk (DataWriter.messageStep c crit) = true ∧
    exIsOk (DataWriter.dateFromStep c crit) = true ∧
    exIsOk (DataWriter.dateToStep c crit) = true ∧
    exIsOk (DataWriter.filesStep c crit) = true := by
  unfold stepsOk at h
  simp only [Bool.and_eq_true] at h
  exact ⟨h.1.1.1.1, h.1.1.1.2, h.1.1.2, h.1.2, h.2⟩

theorem matchesCriteria_isOk (c : PyDict) (crit : Criteria) (h : stepsOk c crit = true) :
    exIsOk (DataWriter.matchesCriteria c crit) = true := by
  obtain ⟨h1, h2, h3, h4, h5⟩ := stepsOk_spread c crit h
  unfold DataWriter.matchesCriteria
  apply andSteps_isOk
  intro s hs
  simp only [List.mem_cons, List.not_mem_nil, or_false] at hs
  rcases hs with rfl | rfl | rfl | rfl | rfl <;> assumption

theorem matchesB_eq_true_iff (c : PyDict) (crit : Criteria)
    (h : exIsOk (DataWriter.matchesCriteria c crit) = true) :
    matchesB c crit = true ↔ DataWriter.matchesCriteria c crit = Except.ok true := by
  unfold matchesB
  cases hm : DataWriter.matchesCriteria c crit with
  | error e => rw [hm] at h; exact absurd h (by simp [exIsOk])
  | ok b => cases b <;> simp

theorem matchesCriteria_eq_ok_true_iff (c : PyDict) (crit : Criteria)
    (h : stepsOk c crit = true) :
    DataWriter.matchesCriteria c crit = Except.ok true ↔
      (DataWriter.authorStep c crit = Except.ok true ∧
       DataWriter.messageStep c crit = Except.ok true ∧
       DataWriter.dateFromStep c crit = Except.ok true ∧
       DataWriter.dateToStep c crit = Except.ok true ∧
       DataWriter.filesStep c crit = Except.ok true) := by
  obtain ⟨h1, h2, h3, h4, h5⟩ := stepsOk_spread c crit h
  unfold DataWriter.matchesCriteria
  rw [andSteps_ok_true_iff _ (by
    intro s hs
    simp only [List.mem_cons, List.not_mem_nil, or_false] at hs
    rcases hs with rfl | rfl | rfl | rfl | rfl <;> assumption)]
  simp

theorem searchLoop_ok (crit : Criteria) (lines : List PyDict)
    (h : ∀ c ∈ lines, exIsOk (DataWriter.matchesCriteria c crit) = true) :
    DataWriter.searchLoop crit lines
      = Except.ok (lines.filter (fun c => matchesB c crit)) := by
  induction lines with
  | nil => rfl
  | cons c rest ih =>
    have hc := h c (by simp)
    unfold DataWriter.searchLoop
    cases hm : DataWriter.matchesCriteria c crit with
    | error e => rw [hm] at hc; exact absurd hc (by simp [exIsOk])
    | ok b =>
      rw [ih (fun x hx => h x (by simp [hx]))]
      have hb : matchesB c crit = b := by unfold matchesB; rw [hm]
      rw [List.filter_cons, hb]

theorem searchCommits_ok (lines : List PyDict) (crit : Criteria) (io : Bool)
    (hok : ∀ x ∈ lines, stepsOk x crit = true) :
    DataWriter.searchCommits ⟨some lines, io⟩ crit
      = PyResult.success ((lines.filter (fun c => matchesB c crit)).reverse) := by
  show (match DataWriter.searchLoop crit lines with
        | .ok ms => PyResult.success ms.reverse
        | .error e => PyResult.error e)
      = PyResult.success ((lines.filter (fun c => matchesB c crit)).reverse)
  rw [searchLoop_ok crit lines (fun x hx => matchesCriteria_isOk x crit (hok x hx))]

theorem searchCommits_mem (lines : List PyDict) (crit : Criteria) (io : Bool)
    (c : PyDict) (hok : ∀ x ∈ lines, stepsOk x crit = true) :
    c ∈ resultList (DataWriter.searchCommits ⟨some lines, io⟩ crit) ↔
      c ∈ lines ∧ DataWriter.matchesCriteria c crit = Except.ok true := by
  rw [searchCommits_ok lines crit io hok]
  simp only [resultList, List.mem_reverse, List.mem_filter]
  constructor
  · rintro ⟨hc, hb⟩
    exact ⟨hc, (matchesB_eq_true_iff c crit (matchesCriteria_isOk c crit (hok c hc))).mp hb⟩
  · rintro ⟨hc, hm⟩
    exact ⟨hc, (matchesB_eq_true_iff c crit (matchesCriteria_isOk c crit (hok c hc))).mpr hm⟩

theorem stepsOk_authorOnly (c : PyDict) (crit : Criteria)
    (h1 : exIsOk (DataWriter.authorStep c crit) = true) :
    stepsOk c crit.authorOnly = true := by
  show (exIsOk (DataWriter.authorStep c crit) && exIsOk (Except.ok true)
      && exIsOk (Except.ok true) && exIsOk (Except.ok true) && exIsOk (Except.ok true)) = true
  rw [h1]
  rfl

theorem stepsOk_messageOnly (c : PyDict) (crit : Criteria)
    (h2 : exIsOk (DataWriter.messageStep c crit) = true) :
    stepsOk c crit.messageOnly = true := by
  show (exIsOk (Except.ok true) && exIsOk (DataWriter.messageStep c crit)
      && exIsOk (Except.ok true) && exIsOk (Except.ok true) && exIsOk (Except.ok true)) = true
  rw [h2]
  rfl

theorem stepsOk_dateFromOnly (c : PyDict) (crit : Criteria)
    (h3 : exIsOk (DataWriter.dateFromStep c crit) = true) :
    stepsOk c crit.dateFromOnly = true := by
  show (exIsOk (Except.ok true) && exIsOk (Except.ok true)
      && exIsOk (DataWriter.dateFromStep c crit) && exIsOk (Except.ok true)
      && exIsOk (Except.ok true)) = true
  rw [h3]
  rfl

theorem stepsOk_dateToOnly (c : PyDict) (crit : Criteria)
    (h4 : exIsOk (DataWriter.dateToStep c crit) = true) :
    stepsOk c crit.dateToOnly = true := by
  show (exIsOk (Except.ok true) && exIsOk (Except.ok true) && exIsOk (Except.ok true)
      && exIsOk (DataWriter.dateToStep c crit) && exIsOk (Except.ok true)) = true
  rw [h4]
  rfl

theorem stepsOk_filesOnly (c : PyDict) (crit : Criteria)
    (h5 : exIsOk (DataWriter.filesStep c crit) = true) :
    stepsOk c crit.filesOnly = true := by
  show (exIsOk (Except.ok true) && exIsOk (Except.ok true) && exIsOk (Except.ok true)
      && exIsOk (Except.ok true) && exIsOk (DataWriter.filesStep c crit)) = true
  rw [h5]
  rfl

theorem matchesCriteria_authorOnly (c : PyDict) (crit : Criteria)
    (h1 : exIsOk (DataWriter.authorStep c crit) = true) :
    DataWriter.matchesCriteria c crit.authorOnly = Except.ok true ↔
      DataWriter.authorStep c crit = Except.ok true := by
  rw [matchesCriteria_eq_ok_true_iff c crit.authorOnly (stepsOk_authorOnly c crit h1)]
  constructor
  · rintro ⟨ha, _⟩; exact ha
  · intro ha; exact ⟨ha, rfl, rfl, rfl, rfl⟩

theorem matchesCriteria_messageOnly (c : PyDict) (crit : Criteria)
    (h2 : exIsOk (DataWriter.messageStep c crit) = true) :
    DataWriter.matchesCriteria c crit.messageOnly = Except.ok true ↔
      DataWriter.messageStep c crit = Except.ok true := by
  rw [matchesCriteria_eq_ok_true_iff c crit.messageOnly (stepsOk_messageOnly c crit h2)]
  constructor
  · rintro ⟨_, hm, _⟩; exact hm
  · intro hm; exact ⟨rfl, hm, rfl, rfl, rfl⟩

theorem matchesCriteria_dateFromOnly (c : PyDict) (crit : Criteria)
    (h3 : exIsOk (DataWriter.dateFromStep c crit) = true) :
    DataWriter.matchesCriteria c crit.dateFromOnly = Except.ok true ↔
      DataWriter.dateFromStep c crit = Except.ok true := by
  rw [matchesCriteria_eq_ok_true_iff c crit.dateFromOnly (stepsOk_dateFromOnly c crit h3)]
  constructor
  · rintro ⟨_, _, hd, _⟩; exact hd
  · intro hd; exact ⟨rfl, rfl, hd, rfl, rfl⟩

theorem matchesCriteria_dateToOnly (c : PyDict) (crit : Criteria)
    (h4 : exIsOk (DataWriter.dateToStep c crit) = true) :
    DataWriter.matchesCriteria c crit.dateToOnly = Except.ok true ↔
      DataWriter.dateToStep c crit = Except.ok true := by
  rw [matchesCriteria_eq_ok_true_iff c crit.dateToOnly (stepsOk_dateToOnly c crit h4)]
  constructor
  · rintro ⟨_, _, _, hd, _⟩; exact hd
  · intro hd; exact ⟨rfl, rfl, rfl, hd, rfl⟩

theorem matchesCriteria_filesOnly (c : PyDict) (crit : Criteria)
    (h5 : exIsOk (DataWriter.filesStep c crit) = true) :
    DataWriter.matchesCriteria c crit.filesOnly = Except.ok true ↔
      DataWriter.filesStep c crit = Except.ok true := by
  rw [matchesCriteria_eq_ok_true_iff c crit.filesOnly (stepsOk_filesOnly c crit h5)]
  constructor
  · rintro ⟨_, _, _, _, hf⟩; exact hf
  · intro hf; exact ⟨rfl, rfl, rfl, rfl, hf⟩

/-- **C6.** When every supplied predicate evaluates without a Python exception
on every stored record (the implicit precondition of the claim; the
null-`commit_date` exception case is settled separately), `Search` returns
exactly the records satisfying the conjunction of the supplied predicate
clauses, in most-recent-first (scan-order-reversed) order: the scan is the
filter by the conjunction of the five guarded clauses, a record matches iff
every clause accepts it, and membership in the result coincides with
membership in all five single-predicate search results (the intersection of
single-predicate searches). -/
theorem c6_search_and_semantics (lines : List PyDict) (crit : Criteria) (io : Bool)
    (hok : ∀ c ∈ lines, stepsOk c crit = true) :
    DataWriter.searchCommits ⟨some lines, io⟩ crit
        = PyResult.success ((lines.filter (fun c => matchesB c crit)).reverse) ∧
    (∀ c ∈ lines, matchesB c crit = true ↔
        (DataWriter.authorStep c crit = Except.ok true ∧
         DataWriter.messageStep c crit = Except.ok true ∧
         DataWriter.dateFromStep c crit = Except.ok true ∧
         DataWriter.dateToStep c crit = Except.ok true ∧
         DataWriter.filesStep c crit = Except.ok true)) ∧
    (∀ c, c ∈ resultList (DataWriter.searchCommits ⟨some lines, io⟩ crit) ↔
        (c ∈ resultList (DataWriter.searchCommits ⟨some lines, io⟩ crit.authorOnly) ∧
         c ∈ resultList (DataWriter.searchCommits ⟨some lines, io⟩ crit.messageOnly) ∧
         c ∈ resultList (DataWriter.searchCommits ⟨some lines, io⟩ crit.dateFromOnly) ∧
         c ∈ resultList (DataWriter.searchCommits ⟨some lines, io⟩ crit.dateToOnly) ∧
         c ∈ resultList (DataWriter.searchCommits ⟨some lines, io⟩ crit.filesOnly))) := by
  have hokA : ∀ c ∈ lines, stepsOk c crit.authorOnly = true :=
    fun c hc => stepsOk_authorOnly c crit (stepsOk_spread c crit (hok c hc)).1
  have hokM : ∀ c ∈ lines, stepsOk c crit.messageOnly = true :=
    fun c hc => stepsOk_messageOnly c crit (stepsOk_spread c crit (hok c hc)).2.1
  have hokDF : ∀ c ∈ lines, stepsOk c crit.dateFromOnly = true :=
    fun c hc => stepsOk_dateFromOnly c crit (stepsOk_spread c crit (hok c hc)).2.2.1
  have hokDT : ∀ c ∈ lines, stepsOk c crit.dateToOnly = true :=
    fun c hc => stepsOk_dateToOnly c crit (stepsOk_spread c crit (hok c hc)).2.2.2.1
  have hokF : ∀ c ∈ lines, stepsOk c crit.filesOnly = true :=
    fun c hc => stepsOk_filesOnly c crit (stepsOk_spread c crit (hok c hc)).2.2.2.2
  refine ⟨searchCommits_ok lines crit io hok, ?_, ?_⟩
  · intro c hc
    exact (matchesB_eq_true_iff c crit (matchesCriteria_isOk c crit (hok c hc))).trans
      (matchesCriteria_eq_ok_true_iff c crit (hok c hc))
  · intro c
    rw [searchCommits_mem lines crit io c hok,
        searchCommits_mem lines crit.authorOnly io c hokA,
        searchCommits_mem lines crit.messageOnly io c hokM,
        searchCommits_mem lines crit.dateFromOnly io c hokDF,
        searchCommits_mem lines crit.dateToOnly io c hokDT,
        searchCommits_mem lines crit.filesOnly io c hokF]
    by_cases hc : c ∈ lines
    · obtain ⟨h1, h2, h3, h4, h5⟩ := stepsOk_spread c crit (hok c hc)
      rw [matchesCriteria_eq_ok_true_iff c crit (hok c hc),
          matchesCriteria_authorOnly c crit h1,
          matchesCriteria_messageOnly c crit h2,
          matchesCriteria_dateFromOnly c crit h3,
          matchesCriteria_dateToOnly c crit h4,
          matchesCriteria_filesOnly c crit h5]
      simp only [hc, true_and]
    · simp [hc]

theorem c6_witness :
    DataWriter.searchCommits ⟨some [recMain, recSecond], false⟩ critJohnBug
      = PyResult.success (([recMain, recSecond].filter
          (fun c => matchesB c critJohnBug)).reverse) ∧
    matchesB recMain critJohnBug = true ∧
    matchesB recSecond critJohnBug = false :=
  ⟨(c6_search_and_semantics [recMain, recSecond] critJohnBug false (by decide)).1,
   by decide, by decide⟩

/-! ## The null-`commit_date` exception path -/

theorem searchLoop_err_of_mem (crit : Criteria) (pre post : List PyDict) (c : PyDict)
    (e : PyErr) (hc : DataWriter.matchesCriteria c crit = Except.error e) :
    ∃ e', DataWriter.searchLoop crit (pre ++ c :: post) = Except.error e' := by
  induction pre with
  | nil =>
    refine ⟨e, ?_⟩
    simp only [List.nil_append]
    unfold DataWriter.searchLoop
    simp only [hc]
  | cons p rest ih =>
    obtain ⟨e', he'⟩ := ih
    cases hp : DataWriter.matchesCriteria p crit with
    | error e2 =>
      refine ⟨e2, ?_⟩
      simp only [List.cons_append]
      unfold DataWriter.searchLoop
      simp only [hp]
    | ok b =>
      refine ⟨e', ?_⟩
      simp only [List.cons_append]
      unfold DataWriter.searchLoop
      simp only [hp, he']

/-- **C10 (counterexample).** A store holding one record with a null
`commit_date`, searched with a `date_from` bound *and* an author predicate the
record fails: the author clause rejects the record before the date clause
runs, so the search returns a successful empty list, not the error envelope
the claim predicts for every such store/criteria pair. -/
theorem c10_counterexample :
    dictGet? recNullDate "commit_date" = some PyVal.none ∧
    isSupplied critMissAuthorWithDate.date_from = true ∧
    DataWriter.searchCommits ⟨some [recNullDate], false⟩ critMissAuthorWithDate
      = PyResult.success [] :=
  ⟨rfl, rfl, rfl⟩

/-- **C10 (amended).** If the store contains a record whose `commit_date` is
an explicit null and that record passes the author and message clauses, then a
`Search` supplying `date_from` and/or `date_to` returns an error envelope for
the whole call: the date clause's `None.replace` raises `AttributeError`,
which the per-record `except ValueError` does not catch, so it aborts the scan
and reaches the operation-level handler. -/
theorem c10_null_commit_date_errors (pre post : List PyDict) (c : PyDict)
    (crit : Criteria) (io : Bool)
    (hnull : dictGet? c "commit_date" = some PyVal.none)
    (hdate : isSupplied crit.date_from = true ∨ isSupplied crit.date_to = true)
    (ha : DataWriter.authorStep c crit = Except.ok true)
    (hm : DataWriter.messageStep c crit = Except.ok true) :
    (DataWriter.searchCommits ⟨some (pre ++ c :: post), io⟩ crit).status = "error" := by
  have hcd : dictGetD c "commit_date" (PyVal.str "") = PyVal.none := by
    unfold dictGetD
    rw [hnull]
    rfl
  have hdfm : ∀ bound, DataWriter.dateFromMatch c bound
      = Except.error PyErr.attributeError := fun bound => by
    simp [DataWriter.dateFromMatch, hcd, pyStrOf]
  have hdtm : ∀ bound, DataWriter.dateToMatch c bound
      = Except.error PyErr.attributeError := fun bound => by
    simp [DataWriter.dateToMatch, hcd, pyStrOf]
  have hdfErr : isSupplied crit.date_from = true →
      DataWriter.dateFromStep c crit = Except.error PyErr.attributeError := by
    intro hd
    unfold DataWriter.dateFromStep DataWriter.step
    cases hs : crit.date_from with
    | none => rw [hs] at hd; cases hd
    | some b =>
      rw [hs] at hd
      have hb : ¬b = "" := by
        intro hb
        rw [hb] at hd
        cases hd
      simp [hb, hdfm]
  have hdtErr : isSupplied crit.date_to = true →
      DataWriter.dateToStep c crit = Except.error PyErr.attributeError := by
    intro hd
    unfold DataWriter.dateToStep DataWriter.step
    cases hs : crit.date_to with
    | none => rw [hs] at hd; cases hd
    | some b =>
      rw [hs] at hd
      have hb : ¬b = "" := by
        intro hb
        rw [hb] at hd
        cases hd
      simp [hb, hdtm]
  have hmc : DataWriter.matchesCriteria c crit = Except.error PyErr.attributeError := by
    unfold DataWriter.matchesCriteria
    rw [ha, andSteps_cons_ok_true, hm, andSteps_cons_ok_true]
    by_cases hdfs : isSupplied crit.date_from = true
    · rw [hdfErr hdfs, andSteps_cons_err]
    · have hdts : isSupplied crit.date_to = true := by
        rcases hdate with hd | hd
        · exact absurd hd hdfs
        · exact hd
      have hdfTrue : DataWriter.dateFromStep c crit = Except.ok true := by
        unfold DataWriter.dateFromStep DataWriter.step
        cases hs : crit.date_from with
        | none => rfl
        | some b =>
          have hb : b = "" := by
            rw [hs] at hdfs
            by_cases hb : b = ""
            · exact hb
            · exact absurd (by simp [isSupplied, hb]) hdfs
          simp [hb]
      rw [hdfTrue, andSteps_cons_ok_true, hdtErr hdts, andSteps_cons_err]
  obtain ⟨e', he'⟩ := searchLoop_err_of_mem crit pre post c PyErr.attributeError hmc
  show (match DataWriter.searchLoop crit (pre ++ c :: post) with
        | .ok ms => PyResult.success ms.reverse
        | .error e => PyResult.error e).status = "error"
  rw [he']
  rfl

theorem c10_witness :
    (DataWriter.searchCommits ⟨some [recMain, recNullDate], false⟩ critDates).status
      = "error" :=
  c10_null_commit_date_errors [recMain] [] recNullDate critDates false rfl
    (Or.inl rfl) rfl rfl

/-- **C2 (counterexample).** An environment where repository check, extraction
and tracker-level validation all succeed but the Store's append raises:
`write_commit` itself reports the error envelope, yet `log_latest_commit`
discards that return value and answers `{status: 'success'}` with the store
left unmutated — the claim demands `{status: 'error'}` whenever the append
step fails. -/
theorem c2_counterexample :
    (DataWriter.writeCommit ⟨Option.none, true⟩
        (CommitTracker.stampCommit envOk extractedRec)).1.status = "error" ∧
    (CommitTracker.logLatestCommit envOk ⟨Option.none, true⟩).1.status = "success" ∧
    (CommitTracker.logLatestCommit envOk ⟨Option.none, true⟩).2.1 = ⟨Option.none, true⟩ :=
  ⟨rfl, rfl, rfl⟩

/-- **C2 (amended).** `log_latest_commit` always returns a status envelope
(success or error — no exception escapes the boundary), and a failure of the
repository check, of the extraction, or of the tracker-level validation is
caught and reported as `{status: 'error'}`; but once those steps succeed the
result is `{status: 'success'}` unconditionally — a failure of the append step
is swallowed inside the Store, whose error envelope the Orchestrator
discards. -/
theorem c2_envelope_semantics :
    (∀ (env : GitParser.GitEnv) (st : StoreState),
      (CommitTracker.logLatestCommit env st).1.status = "success" ∨
      (CommitTracker.logLatestCommit env st).1.status = "error") ∧
    (∀ (env : GitParser.GitEnv) (st : StoreState),
      GitParser.isGitRepository env = false →
      (CommitTracker.logLatestCommit env st).1.status = "error") ∧
    (∀ (env : GitParser.GitEnv) (st : StoreState) (e : PyErr),
      env.extraction = Except.error e →
      (CommitTracker.logLatestCommit env st).1.status = "error") ∧
    (∀ (env : GitParser.GitEnv) (st : StoreState) (cd : PyDict) (e : PyErr),
      env.extraction = Except.ok cd →
      CommitTracker.trackerValidate (CommitTracker.stampCommit env cd) = Except.error e →
      (CommitTracker.logLatestCommit env st).1.status = "error") ∧
    (∀ (env : GitParser.GitEnv) (st : StoreState) (cd : PyDict),
      GitParser.isGitRepository env = true →
      env.extraction = Except.ok cd →
      CommitTracker.trackerValidate (CommitTracker.stampCommit env cd) = Except.ok () →
      (CommitTracker.logLatestCommit env st).1.status = "success") := by
  refine ⟨?_, ?_, ?_, ?_, ?_⟩
  · intro env st
    cases hr : GitParser.isGitRepository env
    · right
      simp [CommitTracker.logLatestCommit, CommitTracker.logLatestCommitE, hr,
        PyResult.status]
    · cases hx : env.extraction with
      | error e =>
        right
        simp [CommitTracker.logLatestCommit, CommitTracker.logLatestCommitE, hr, hx,
          PyResult.status]
      | ok cd =>
        cases hv : CommitTracker.trackerValidate (CommitTracker.stampCommit env cd) with
        | error e =>
          right
          simp [CommitTracker.logLatestCommit, CommitTracker.logLatestCommitE, hr, hx, hv,
            PyResult.status]
        | ok u =>
          left
          simp [CommitTracker.logLatestCommit, CommitTracker.logLatestCommitE, hr, hx, hv,
            PyResult.status]
  · intro env st h
    simp [CommitTracker.logLatestCommit, CommitTracker.logLatestCommitE, h,
      PyResult.status]
  · intro env st e hx
    cases hr : GitParser.isGitRepository env <;>
      simp [CommitTracker.logLatestCommit, CommitTracker.logLatestCommitE, hr, hx,
        PyResult.status]
  · intro env st cd e hx hv
    cases hr : GitParser.isGitRepository env <;>
      simp [CommitTracker.logLatestCommit, CommitTracker.logLatestCommitE, hr, hx, hv,
        PyResult.status]
  · intro env st cd hr hx hv
    simp [CommitTracker.logLatestCommit, CommitTracker.logLatestCommitE, hr, hx, hv,
      PyResult.status]

theorem c2_witness :
    (CommitTracker.logLatestCommit envNoRepo ⟨Option.none, false⟩).1.status = "error" ∧
    (CommitTracker.logLatestCommit envOk ⟨Option.none, true⟩).1.status = "success" :=
  ⟨c2_envelope_semantics.2.1 envNoRepo ⟨Option.none, false⟩ rfl,
   c2_envelope_semantics.2.2.2.2 envOk ⟨Option.none, true⟩ extractedRec rfl rfl rfl⟩

end CommitTrackerService
